import Mathlib

/-!
Verification of the workerd Fetch-protocol layer (Body/Request/Response/
Fetcher/FetchEvent from `http.h`, plus the V8 ValueSerializer patch) against
its natural-language specification.  Pure functions and state machines are
shallowly embedded; bytes are `Nat`, streams are explicit lists with a
`disturbed` flag, fallible operations return `Except` or pair an
`Option` error with the resulting state.
-/

namespace Workerd

/-- Body::Buffer's `ownBytes` field: either refcounted raw bytes
(`kj::Own<RefcountedBytes>`) or a Blob reference (`jsg::Ref<Blob>`). -/
inductive OwnBytes where
  | refcounted (bytes : List Nat)
  | blob (data : List Nat)
deriving DecidableEq

/-- The underlying byte storage of an `OwnBytes`. -/
def OwnBytes.storage : OwnBytes → List Nat
  | .refcounted bytes => bytes
  | .blob data => data

/-- Body::Buffer: owned bytes plus an `ArrayPtr` view onto them.  All three
constructors in the source take the view from offset 0, so the view is
represented by its length (`view = storage.take viewLen`). -/
structure Buffer where
  ownBytes : OwnBytes
  viewLen : Nat
deriving DecidableEq

/-- The bytes visible through the buffer's `view`. -/
def Buffer.view (b : Buffer) : List Nat := b.ownBytes.storage.take b.viewLen

/-- Buffer(kj::Array<kj::byte>): owns the array, view covers all of it. -/
def Buffer.ofArray (array : List Nat) : Buffer :=
  ⟨.refcounted array, array.length⟩

/-- Buffer(kj::String): owns the string's bytes including the trailing nul
terminator; the view is `bytesIncludingNull.first(size - 1)`, excluding it. -/
def Buffer.ofString (chars : List Nat) : Buffer :=
  let bytesIncludingNull := chars ++ [0]
  ⟨.refcounted bytesIncludingNull, bytesIncludingNull.length - 1⟩

/-- Buffer(jsg::Ref<Blob>): view covers the blob's whole data. -/
def Buffer.ofBlob (data : List Nat) : Buffer :=
  ⟨.blob data, data.length⟩

/-- A ReadableStream carrying its remaining bytes and whether consumption has
begun (`isDisturbed` in the source's stream API). -/
structure ReadableStream where
  chunks : List Nat
  disturbed : Bool
deriving DecidableEq

/-- A fresh stream over the given bytes, not yet disturbed. -/
def ReadableStream.ofBytes (bytes : List Nat) : ReadableStream :=
  ⟨bytes, false⟩

/-- Body::Impl: `{ stream, optional buffer }`. -/
structure BodyImpl where
  stream : ReadableStream
  buffer : Option Buffer
deriving DecidableEq

/-- Body: `impl` is none for a null body (Body constructed with no
ExtractedBody). -/
structure Body where
  impl : Option BodyImpl
deriving DecidableEq

/-- The kinds of Body::Initializer relevant to body extraction: a
ReadableStream is adopted directly; the other kinds are buffer-like sources
(string, byte array, blob; FormData / URLSearchParams serialize to canonical
bytes and are covered by the string case). -/
inductive Initializer where
  | readableStream (bytes : List Nat)
  | string (chars : List Nat)
  | bytes (array : List Nat)
  | blob (data : List Nat)
deriving DecidableEq

/-- Modelled from the spec: `extractBody` (implementation in http.c++ is not
under src).  A stream initializer is adopted directly and is not rewindable
(no buffer); string/byte/blob initializers are retained as a Buffer whose
view backs a freshly derived stream. -/
def extractBody : Initializer → BodyImpl
  | .readableStream bytes => ⟨ReadableStream.ofBytes bytes, none⟩
  | .string chars =>
    let buf := Buffer.ofString chars
    ⟨ReadableStream.ofBytes buf.view, some buf⟩
  | .bytes array =>
    let buf := Buffer.ofArray array
    ⟨ReadableStream.ofBytes buf.view, some buf⟩
  | .blob data =>
    let buf := Buffer.ofBlob data
    ⟨ReadableStream.ofBytes buf.view, some buf⟩

/-- A Body created from an initializer. -/
def Body.ofInit (init : Initializer) : Body := ⟨some (extractBody init)⟩

/-- The null Body (constructed with no ExtractedBody). -/
def Body.nullBody : Body := ⟨none⟩

/-- Modelled from the spec: Body::canRewindBody (implementation in http.c++
is not under src).  The in-src declaration documents the behavior exactly:
"True if this body is null or buffer-backed, false if this body is a
ReadableStream." -/
def Body.canRewindBody (b : Body) : Bool :=
  match b.impl with
  | none => true
  | some i => i.buffer.isSome

/-- Claim-side predicate: a backing buffer is present. -/
def Body.hasBuffer (b : Body) : Bool :=
  match b.impl with
  | none => false
  | some i => i.buffer.isSome

/-- Claim-side predicate: the body's stream has begun consumption. -/
def Body.streamDisturbed (b : Body) : Bool :=
  match b.impl with
  | none => false
  | some i => i.stream.disturbed

/-- Modelled from the spec: Body::rewindBody (implementation in http.c++ is
not under src): "rewind replaces the live stream with one freshly derived
from the retained buffer" (precondition `canRewindBody()`; on a null body or
a buffer-less body there is nothing to do). -/
def Body.rewindBody (b : Body) : Body :=
  match b.impl with
  | none => b
  | some i =>
    match i.buffer with
    | none => b
    | some buf => ⟨some ⟨ReadableStream.ofBytes buf.view, some buf⟩⟩

/-- Modelled from the spec: Body::getBodyUsed (implementation in http.c++ is
not under src): `bodyUsed` reports whether the stream has begun consumption;
a null body is never used. -/
def Body.getBodyUsed (b : Body) : Bool :=
  match b.impl with
  | none => false
  | some i => i.stream.disturbed

/-- Failure kind for body consumption. -/
inductive BodyError where
  | alreadyUsed
deriving DecidableEq

/-- Modelled from the spec: the common draining step behind every consumption
accessor (arrayBuffer/bytes/text/json/formData/blob; implementations in
http.c++ are not under src): "Each consumption accessor drains the stream
exactly once; a second call, or a call after full drain, fails with an
already-used condition."  A null body has no stream and yields empty bytes. -/
def Body.consume (b : Body) : Except BodyError (List Nat × Body) :=
  match b.impl with
  | none => .ok ([], b)
  | some i =>
    if i.stream.disturbed then .error .alreadyUsed
    else .ok (i.stream.chunks, ⟨some ⟨⟨[], true⟩, i.buffer⟩⟩)

/-- An AbortSignal: an identity plus the "never fires" predicate
(`getNeverAborts()` in the source) queried once at Request construction. -/
structure AbortSignal where
  id : Nat
  neverAborts : Bool
deriving DecidableEq

/-- Request::Redirect: follow or manual ("error mode doesn't make sense"). -/
inductive Redirect where
  | follow
  | manual
deriving DecidableEq, BEq

/-- The Request fields relevant to the claims: url, redirect mode, body, and
the mutually exclusive `signal` / `thisSignal` pair. -/
structure Request where
  url : String
  redirect : Redirect
  body : Body
  signal : Option AbortSignal
  thisSignal : Option AbortSignal
deriving DecidableEq

/-- Request's constructor (inline in http.h): both signal fields start
absent; if an AbortSignal is supplied, `getNeverAborts()` decides whether it
is stored as `thisSignal` (skipping the cancel machinery) or as `signal`. -/
def Request.construct (url : String) (redirect : Redirect) (body : Body)
    (signal : Option AbortSignal) : Request :=
  match signal with
  | none => ⟨url, redirect, body, none, none⟩
  | some s =>
    if s.neverAborts then ⟨url, redirect, body, none, some s⟩
    else ⟨url, redirect, body, some s, none⟩

/-- Modelled from the spec: Request::getThisSignal (implementation in
http.c++ is not under src).  The request's own signal accessor never returns
absence: it yields the supplied `signal` if present, else the stored
`thisSignal`, else it lazily creates a never-aborting signal, stores it in
`thisSignal` and returns it. -/
def Request.getThisSignal (r : Request) (freshId : Nat) :
    AbortSignal × Request :=
  match r.signal with
  | some s => (s, r)
  | none =>
    match r.thisSignal with
    | some s => (s, r)
    | none =>
      let s : AbortSignal := ⟨freshId, true⟩
      (s, { r with thisSignal := some s })

/-- The invariant that `signal` and `thisSignal` are never both populated. -/
def Request.signalExclusive (r : Request) : Bool :=
  !(r.signal.isSome && r.thisSignal.isSome)

/-- isRedirectStatusCode, modelled from the spec: the accepted redirect
status set is the standard Fetch redirect set (301, 302, 303, 307, 308);
the implementation in http.c++ is not under src. -/
def isRedirectStatusCode (status : Nat) : Bool :=
  status == 301 || status == 302 || status == 303 || status == 307 ||
    status == 308

/-- The Response fields relevant to the claims. -/
structure Response where
  statusCode : Nat
  statusText : String
  headers : List (String × String)
  body : Body
  urlList : List String
  webSocket : Option Unit
deriving DecidableEq

/-- Modelled from the spec: Response::error (implementation in http.c++ is
not under src).  "A network error is a response whose status is always 0,
status message is always the empty byte sequence, header list is always
empty, body is always null"; only fetch()-created Responses have a non-empty
url list, so it is empty here. -/
def Response.error : Response :=
  ⟨0, "", [], Body.nullBody, [], none⟩

/-- Modelled from the spec: Response::getOk (implementation in http.c++ is
not under src): `ok` holds exactly for 2xx statuses. -/
def Response.getOk (r : Response) : Bool :=
  200 ≤ r.statusCode && r.statusCode ≤ 299

/-- Response::getType (inline in http.h): "error" for status 0, otherwise
"default". -/
def Response.getType (r : Response) : String :=
  if r.statusCode = 0 then "error" else "default"

/-- Failure kind of Response::redirect. -/
inductive RedirectError where
  | invalidStatus
deriving DecidableEq

/-- Modelled from the spec: Response::redirect (implementation in http.c++
is not under src): "validates status is an accepted redirect code (default
302 if omitted) and yields headers containing a Location entry with a null
body". -/
def Response.redirect (url : String) (status : Option Nat) :
    Except RedirectError Response :=
  if isRedirectStatusCode (status.getD 302) then
    .ok ⟨status.getD 302, "", [("Location", url)], Body.nullBody, [], none⟩
  else
    .error .invalidStatus

/-- What a peer replies to one dispatched request: a status, an optional
Location header, and an optional body. -/
structure PeerReply where
  status : Nat
  location : Option String
  body : Option (List Nat)
deriving DecidableEq

/-- A peer: a function from the dispatched url and request body bytes to a
reply.  This stands for the WorkerInterface on the far side of the dispatch
channel. -/
def Peer : Type := String → Option (List Nat) → PeerReply

/-- The body bytes a dispatch transmits for a request: the live stream's
bytes, or none for a null body. -/
def Request.bodyBytes (r : Request) : Option (List Nat) :=
  match r.body.impl with
  | none => none
  | some i => some i.stream.chunks

/-- Build the Response for a peer reply received at the end of a fetch, with
the accumulated url list. -/
def Response.fromReply (reply : PeerReply) (urls : List String) : Response :=
  let body : Body :=
    match reply.body with
    | none => Body.nullBody
    | some bytes => ⟨some ⟨ReadableStream.ofBytes bytes, none⟩⟩
  ⟨reply.status, "", [], body, urls, none⟩

/-- Failure kinds of the fetch redirect loop. -/
inductive FetchError where
  | redirectBodyNotRewindable
  | tooManyRedirects
deriving DecidableEq

/-- A record of one issued request: the target url and the body bytes sent. -/
abbrev Issued : Type := String × Option (List Nat)

/-- Modelled from the spec: the dispatch-and-redirect loop behind
Fetcher::fetch (fetchImpl / handleHttpResponse in http.c++ are not under
src).  Each iteration dispatches the request to the peer, appends the
requested url to the url list and records the issued request; on a redirect
status in follow mode with a Location header it fails the whole operation if
the body is not rewindable, otherwise rewinds the body and re-issues against
the Location target, up to the chain-depth limit carried by `fuel`; in
manual mode (or on a non-redirect status, or a redirect without Location)
the response is returned as-is. -/
def fetchImpl (peer : Peer) :
    Nat → Request → List String → List Issued →
      Except FetchError (Response × List Issued)
  | fuel, req, urls, issued =>
    if req.redirect == .follow
        && isRedirectStatusCode (peer req.url req.bodyBytes).status then
      match (peer req.url req.bodyBytes).location with
      | none =>
        .ok (Response.fromReply (peer req.url req.bodyBytes)
              (urls ++ [req.url]),
          issued ++ [(req.url, req.bodyBytes)])
      | some loc =>
        if req.body.canRewindBody then
          match fuel with
          | 0 => .error .tooManyRedirects
          | fuel' + 1 =>
            fetchImpl peer fuel'
              { req with url := loc, body := req.body.rewindBody }
              (urls ++ [req.url]) (issued ++ [(req.url, req.bodyBytes)])
        else .error .redirectBodyNotRewindable
    else
      .ok (Response.fromReply (peer req.url req.bodyBytes)
            (urls ++ [req.url]),
        issued ++ [(req.url, req.bodyBytes)])

/-- The redirect chain-depth limit (the spec recommends 20). -/
def redirectChainLimit : Nat := 20

/-- Modelled from the spec: Fetcher::fetch on an already-coerced Request,
also returning the list of issued requests so that theorems can speak about
what was sent over the wire. -/
def fetch (peer : Peer) (req : Request) :
    Except FetchError (Response × List Issued) :=
  fetchImpl peer redirectChainLimit req [] []

/-- The scenario peer of the spec's testable property: it answers the
original url `u` with a 307 redirect to `L` and any other url with a plain
200. -/
def peer307 (u L : String) : Peer := fun url _ =>
  if url = u then ⟨307, some L, none⟩ else ⟨200, none, none⟩

/-- FetchEvent's state: `{AwaitingRespondWith, RespondWithCalled(promise),
ResponseSent}`; promises are abstracted by an identifier for their eventual
value. -/
inductive FetchEventState where
  | awaitingRespondWith
  | respondWithCalled (promise : Nat)
  | responseSent
deriving DecidableEq

/-- FetchEvent, reduced to its delivery state machine. -/
structure FetchEvent where
  state : FetchEventState
deriving DecidableEq

/-- A freshly constructed FetchEvent starts in AwaitingRespondWith. -/
def FetchEvent.new : FetchEvent := ⟨.awaitingRespondWith⟩

/-- Failure kind of respondWith. -/
inductive FetchEventError where
  | alreadyResponded
deriving DecidableEq

/-- Modelled from the spec: FetchEvent::respondWith (implementation in
http.c++ is not under src): legal only from AwaitingRespondWith, where it
stores the promise; any other call fails with an already-responded condition
and leaves the state unchanged (an error result carries no new state). -/
def FetchEvent.respondWith (ev : FetchEvent) (promise : Nat) :
    Except FetchEventError FetchEvent :=
  match ev.state with
  | .awaitingRespondWith => .ok ⟨.respondWithCalled promise⟩
  | _ => .error .alreadyResponded

/-- Modelled from the spec: FetchEvent::getResponsePromise (implementation
in http.c++ is not under src): the dispatcher's sole channel for observing
the resolved response; yields the stored promise when respondWith was
called, absent otherwise, and moves the machine to ResponseSent. -/
def FetchEvent.getResponsePromise (ev : FetchEvent) :
    Option Nat × FetchEvent :=
  match ev.state with
  | .awaitingRespondWith => (none, ⟨.responseSent⟩)
  | .respondWithCalled p => (some p, ⟨.responseSent⟩)
  | .responseSent => (none, ev)

/-- One attempted respondWith call: on failure the event keeps its state. -/
def FetchEvent.respondWithStep (ev : FetchEvent) (promise : Nat) :
    FetchEvent :=
  match ev.respondWith promise with
  | .ok ev' => ev'
  | .error _ => ev

/-- Run a sequence of respondWith calls on a fresh FetchEvent, keeping the
old state whenever a call fails. -/
def FetchEvent.runRespondWith (promises : List Nat) : FetchEvent :=
  promises.foldl FetchEvent.respondWithStep FetchEvent.new

/-- V8 instance-type classification relevant to WriteJSReceiver: ordinary
receivers, generic special receivers, JS_SPECIAL_API_OBJECT_TYPE, and the
two WebAssembly GC types exempted from the special-receiver rejection. -/
inductive InstanceType where
  | ordinary
  | specialReceiver
  | specialApiObject
  | wasmStruct
  | wasmArray
deriving DecidableEq

/-- IsSpecialReceiverInstanceType for the types modelled here. -/
def InstanceType.isSpecialReceiver : InstanceType → Bool
  | .ordinary => false
  | .specialReceiver => true
  | .specialApiObject => true
  | .wasmStruct => true
  | .wasmArray => true

/-- A JS receiver as WriteJSReceiver inspects it: whether it is callable,
and its instance type. -/
structure JSReceiver where
  callable : Bool
  instanceType : InstanceType
deriving DecidableEq

/-- Items appended to the serialization buffer by the paths modelled here. -/
inductive SerStep where
  | hostObject
  | jsObjectData
deriving DecidableEq

/-- Serialization failure kind: a data clone error. -/
inductive SerError where
  | dataCloneError
deriving DecidableEq

/-- The delegate-backed host-object path (WriteHostObject): records the
receiver on the buffer as a host object (in the RPC system it becomes a
remote-invocation stub). -/
def writeHostObject (buffer : List SerStep) :
    Option SerError × List SerStep :=
  (none, buffer ++ [.hostObject])

/-- ValueSerializer::WriteJSReceiver as changed by the
SetTreatFunctionsAsHostObjects patch: a callable receiver goes to the
host-object path when `treat_functions_as_host_objects_` is set and
otherwise raises a data clone error; special receiver instance types other
than JS_SPECIAL_API_OBJECT_TYPE and the wasm GC types also raise a data
clone error; remaining receivers are serialized normally.
ThrowDataCloneError does not touch the buffer, so an error leaves the
buffer exactly as it was. -/
def writeJSReceiver (treatFunctionsAsHostObjects : Bool) (r : JSReceiver)
    (buffer : List SerStep) : Option SerError × List SerStep :=
  if r.callable then
    if treatFunctionsAsHostObjects then writeHostObject buffer
    else (some .dataCloneError, buffer)
  else if r.instanceType.isSpecialReceiver &&
      !(r.instanceType == .specialApiObject) &&
      !(r.instanceType == .wasmStruct) &&
      !(r.instanceType == .wasmArray) then
    (some .dataCloneError, buffer)
  else
    (none, buffer ++ [.jsObjectData])

/-- Claim C9: a Body::Buffer constructed from a string owns its storage
including the trailing nul byte while its view covers exactly that storage
minus the last byte, so a text-derived body's visible bytes never include
the trailing marker; a Buffer constructed from a byte array has a view over
the entire owned storage. -/
theorem buffer_view_trailing_byte :
    (∀ chars : List Nat,
        (Buffer.ofString chars).ownBytes.storage = chars ++ [0]
          ∧ (Buffer.ofString chars).view
              = (Buffer.ofString chars).ownBytes.storage.dropLast
          ∧ (Buffer.ofString chars).view = chars)
    ∧ ∀ array : List Nat,
        (Buffer.ofArray array).view = (Buffer.ofArray array).ownBytes.storage := by
  constructor
  · intro chars
    refine ⟨rfl, ?_, ?_⟩
    · simp [Buffer.ofString, Buffer.view, OwnBytes.storage]
    · simp [Buffer.ofString, Buffer.view, OwnBytes.storage]
  · intro array
    simp [Buffer.ofArray, Buffer.view, OwnBytes.storage]

/-- Claim C1 counterexample: as stated, the claim fails on the null body
(canRewindBody is true with no buffer present) and on a buffer-backed body
whose stream has already been consumed (canRewindBody is still true). -/
theorem canRewindBody_claim_counterexample :
    (¬ (Body.canRewindBody ⟨none⟩ = true ↔
          Body.hasBuffer ⟨none⟩ = true ∧ Body.streamDisturbed ⟨none⟩ = false))
    ∧ ¬ (Body.canRewindBody ⟨some ⟨⟨[], true⟩, some (Buffer.ofArray [1])⟩⟩ = true ↔
          Body.hasBuffer ⟨some ⟨⟨[], true⟩, some (Buffer.ofArray [1])⟩⟩ = true
            ∧ Body.streamDisturbed ⟨some ⟨⟨[], true⟩, some (Buffer.ofArray [1])⟩⟩
                = false) := by
  decide

/-- Claim C1 (amended): canRewindBody() returns true exactly when the body
is null or a backing buffer is present, independent of whether the stream
has begun consumption; in particular, for every Body created from a
ReadableStream initializer it returns false. -/
theorem canRewindBody_null_or_buffer :
    (∀ b : Body, Body.canRewindBody b = (b.impl.isNone || Body.hasBuffer b))
    ∧ ∀ bytes : List Nat,
        Body.canRewindBody (Body.ofInit (.readableStream bytes)) = false := by
  constructor
  · intro b
    obtain ⟨impl⟩ := b
    cases impl with
    | none => rfl
    | some i => simp [Body.canRewindBody, Body.hasBuffer]
  · intro bytes
    rfl

/-- Claim C6: Response.error() yields the fixed network-error sentinel:
status 0, empty headers, null body, empty urlList, ok=false, type "error". -/
theorem response_error_network_sentinel :
    Response.error.statusCode = 0
    ∧ Response.error.headers = []
    ∧ Response.error.body = Body.nullBody
    ∧ Response.error.urlList = []
    ∧ Response.error.getOk = false
    ∧ Response.error.getType = "error" := by
  refine ⟨rfl, rfl, rfl, rfl, rfl, rfl⟩

/-- Claim C10: with the host-object treatment of functions enabled,
serializing a callable receiver takes the host-object path (it is written as
a host object, the remote-invocation stub); with it disabled, serialization
fails with a data clone error and leaves the buffer untouched. -/
theorem writeJSReceiver_functions_as_host_objects :
    (∀ (t : InstanceType) (buffer : List SerStep),
        writeJSReceiver true ⟨true, t⟩ buffer
          = (none, buffer ++ [SerStep.hostObject]))
    ∧ ∀ (t : InstanceType) (buffer : List SerStep),
        writeJSReceiver false ⟨true, t⟩ buffer
          = (some SerError.dataCloneError, buffer) := by
  exact ⟨fun t buffer => rfl, fun t buffer => rfl⟩

/-- Claim C8: at construction a supplied never-aborting AbortSignal is
stored as thisSignal and any other supplied signal as signal; the two fields
are never both populated, the own-signal accessor keeps that invariant
unchanged, and on a request built without a signal the accessor still
returns a (never-aborting) signal rather than absence. -/
theorem request_signal_duality :
    (∀ (url : String) (red : Redirect) (body : Body) (s : AbortSignal),
        (Request.construct url red body (some s)).signal
            = (if s.neverAborts then none else some s)
          ∧ (Request.construct url red body (some s)).thisSignal
            = (if s.neverAborts then some s else none))
    ∧ (∀ (url : String) (red : Redirect) (body : Body),
        (Request.construct url red body none).signal = none
          ∧ (Request.construct url red body none).thisSignal = none)
    ∧ (∀ (url : String) (red : Redirect) (body : Body)
          (osig : Option AbortSignal),
        (Request.construct url red body osig).signalExclusive = true)
    ∧ (∀ (r : Request) (n : Nat),
        ((Request.getThisSignal r n).2).signalExclusive = r.signalExclusive)
    ∧ ∀ (url : String) (red : Redirect) (body : Body) (n : Nat),
        ((Request.construct url red body none).getThisSignal n).1.neverAborts
          = true := by
  refine ⟨?_, ?_, ?_, ?_, ?_⟩
  · intro url red body s
    by_cases h : s.neverAborts <;> simp [Request.construct, h]
  · intro url red body
    exact ⟨rfl, rfl⟩
  · intro url red body osig
    match osig with
    | none => rfl
    | some s =>
      by_cases h : s.neverAborts <;>
        simp [Request.construct, h, Request.signalExclusive]
  · intro r n
    obtain ⟨url, red, body, sig, tsig⟩ := r
    cases sig with
    | some s => rfl
    | none =>
      cases tsig with
      | some s => rfl
      | none => rfl
  · intro url red body n
    rfl

/-- Claim C5: respondWith succeeds only from AwaitingRespondWith; from any
other state it fails with an already-responded condition, and since a failed
call leaves the state unchanged, running any sequence of respondWith calls
makes getResponsePromise resolve to the first call's promise — in
particular it is absent exactly when respondWith was never called. -/
theorem fetchEvent_respondWith_once :
    (∀ p : Nat, FetchEvent.new.respondWith p
        = .ok ⟨.respondWithCalled p⟩)
    ∧ (∀ p q : Nat, (⟨.respondWithCalled q⟩ : FetchEvent).respondWith p
        = .error .alreadyResponded)
    ∧ (∀ p : Nat, (⟨.responseSent⟩ : FetchEvent).respondWith p
        = .error .alreadyResponded)
    ∧ ∀ promises : List Nat,
        (FetchEvent.runRespondWith promises).getResponsePromise.1
          = promises.head? := by
  refine ⟨fun p => rfl, fun p q => rfl, fun p => rfl, ?_⟩
  have fixed : ∀ (ps : List Nat) (q : Nat),
      ps.foldl FetchEvent.respondWithStep ⟨.respondWithCalled q⟩
        = (⟨.respondWithCalled q⟩ : FetchEvent) := by
    intro ps
    induction ps with
    | nil => intro q; rfl
    | cons p ps ih =>
      intro q
      simpa [FetchEvent.respondWithStep, FetchEvent.respondWith] using ih q
  intro promises
  cases promises with
  | nil => rfl
  | cons p ps =>
    simp [FetchEvent.runRespondWith, FetchEvent.respondWithStep,
      FetchEvent.respondWith, FetchEvent.new, fixed ps p,
      FetchEvent.getResponsePromise]

/-- Claim C2: a freshly created Body is unused; its first draining
consumption succeeds and flips bodyUsed to true, after which any further
consumption fails with an already-used condition; consumption succeeds only
from the unused state, so the false-to-true transition happens exactly once. -/
theorem bodyUsed_monotonic_once (init : Initializer) :
    Body.getBodyUsed (Body.ofInit init) = false
    ∧ (∃ bytes b', Body.consume (Body.ofInit init) = .ok (bytes, b')
        ∧ Body.getBodyUsed b' = true
        ∧ Body.consume b' = .error .alreadyUsed)
    ∧ (∀ b : Body, Body.getBodyUsed b = true →
        Body.consume b = .error .alreadyUsed)
    ∧ ∀ (b : Body) (bytes : List Nat) (b' : Body),
        Body.consume b = .ok (bytes, b') → Body.getBodyUsed b = false := by
  refine ⟨?_, ?_, ?_, ?_⟩
  · cases init <;> rfl
  · cases init <;> exact ⟨_, _, rfl, rfl, rfl⟩
  · intro b h
    obtain ⟨impl⟩ := b
    cases impl with
    | none => exact absurd h (by simp [Body.getBodyUsed])
    | some i =>
      have hd : i.stream.disturbed = true := h
      simp [Body.consume, hd]
  · intro b bytes b' h
    obtain ⟨impl⟩ := b
    cases impl with
    | none => rfl
    | some i =>
      by_cases hd : i.stream.disturbed = true
      · simp [Body.consume, hd] at h
      · simp [Body.getBodyUsed, hd]

/-- Witness for C2: concrete instances discharging each hypothesis of
`bodyUsed_monotonic_once`. -/
theorem bodyUsed_monotonic_once_witness :
    Body.consume ⟨some ⟨⟨[], true⟩, none⟩⟩
        = .error BodyError.alreadyUsed
    ∧ Body.getBodyUsed (Body.ofInit (.bytes [7])) = false :=
  ⟨(bodyUsed_monotonic_once (.bytes [7])).2.2.1 ⟨some ⟨⟨[], true⟩, none⟩⟩
      (by decide),
    (bodyUsed_monotonic_once (.bytes [7])).2.2.2 (Body.ofInit (.bytes [7]))
      [7] ⟨some ⟨⟨[], true⟩, some (Buffer.ofArray [7])⟩⟩ rfl⟩

/-- Every successful run of the fetch loop extends the url list and the
issued-request list in lockstep, by at least one entry each. -/
theorem fetchImpl_ok_extends (peer : Peer) (fuel : Nat) :
    ∀ (req : Request) (urls : List String) (issued : List Issued)
      (resp : Response) (out : List Issued),
      fetchImpl peer fuel req urls issued = .ok (resp, out) →
      ∃ tail ptail, resp.urlList = urls ++ tail ∧ out = issued ++ ptail
        ∧ tail.length = ptail.length ∧ 1 ≤ tail.length := by
  induction fuel with
  | zero =>
    intro req urls issued resp out h
    rw [fetchImpl] at h
    split at h
    · split at h
      · obtain ⟨h1, h2⟩ := Prod.mk.injEq .. ▸ Except.ok.inj h
        exact ⟨[req.url], [(req.url, req.bodyBytes)],
          by simp [← h1, Response.fromReply], by simp [← h2], rfl, by simp⟩
      · split at h <;> exact absurd h (by simp)
    · obtain ⟨h1, h2⟩ := Prod.mk.injEq .. ▸ Except.ok.inj h
      exact ⟨[req.url], [(req.url, req.bodyBytes)],
        by simp [← h1, Response.fromReply], by simp [← h2], rfl, by simp⟩
  | succ fuel ih =>
    intro req urls issued resp out h
    rw [fetchImpl] at h
    split at h
    · split at h
      · obtain ⟨h1, h2⟩ := Prod.mk.injEq .. ▸ Except.ok.inj h
        exact ⟨[req.url], [(req.url, req.bodyBytes)],
          by simp [← h1, Response.fromReply], by simp [← h2], rfl, by simp⟩
      · split at h
        · obtain ⟨tail, ptail, e1, e2, e3, e4⟩ := ih _ _ _ _ _ h
          exact ⟨req.url :: tail, (req.url, req.bodyBytes) :: ptail,
            by simpa using e1, by simpa using e2, by simpa using e3,
            by simp⟩
        · exact absurd h (by simp)
    · obtain ⟨h1, h2⟩ := Prod.mk.injEq .. ▸ Except.ok.inj h
      exact ⟨[req.url], [(req.url, req.bodyBytes)],
        by simp [← h1, Response.fromReply], by simp [← h2], rfl, by simp⟩

/-- Claim C4: a fetch in manual redirect mode returns the peer's reply
unmodified in a single dispatch, with urlList of length 1; in general the
urlList of any successful fetch has one entry per issued request, i.e.
length 1 plus the number of redirects followed. -/
theorem response_urlList_matches_mode :
    (∀ (peer : Peer) (req : Request), req.redirect = .manual →
        fetch peer req
          = .ok (Response.fromReply (peer req.url req.bodyBytes) [req.url],
              [(req.url, req.bodyBytes)]))
    ∧ ∀ (peer : Peer) (req : Request) (resp : Response)
        (out : List Issued),
        fetch peer req = .ok (resp, out) →
        resp.urlList.length = out.length ∧ 1 ≤ out.length
          ∧ resp.urlList.length = 1 + (out.length - 1) := by
  constructor
  · intro peer req h
    have hc : (req.redirect == Redirect.follow
        && isRedirectStatusCode (peer req.url req.bodyBytes).status)
          = false := by
      rw [h]
      simp [show (Redirect.manual == Redirect.follow) = false from rfl]
    rw [fetch, fetchImpl, if_neg (by simp [hc])]
    simp
  · intro peer req resp out h
    obtain ⟨tail, ptail, e1, e2, e3, e4⟩ :=
      fetchImpl_ok_extends peer redirectChainLimit req [] [] resp out h
    simp only [List.nil_append] at e1 e2
    subst e1; subst e2
    omega

/-- Witness for C4: a manual-mode fetch against a constant peer, with the
general length law applied to its result. -/
theorem response_urlList_matches_mode_witness :
    fetch (fun _ _ => ⟨200, none, none⟩)
        (Request.construct "u" .manual Body.nullBody none)
      = .ok (Response.fromReply ⟨200, none, none⟩ ["u"], [("u", none)])
    ∧ (Response.fromReply ⟨200, none, none⟩ ["u"]).urlList.length
        = 1 + (1 - 1) := by
  have h1 := response_urlList_matches_mode.1 (fun _ _ => ⟨200, none, none⟩)
    (Request.construct "u" .manual Body.nullBody none) rfl
  refine ⟨h1, ?_⟩
  have h2 := (response_urlList_matches_mode.2 _ _ _ _ h1).2.2
  simpa using h2

/-- Claim C7: Response.redirect fails unless the status is an accepted
redirect code, defaults to 302 when the status is omitted, and on success
carries a Location header for the given url with a null body; in particular
redirect("https://example.com/x", 301) has status 301, that Location
header, a null body, and ok=false. -/
theorem response_redirect_location :
    (∀ (url : String) (s : Nat), isRedirectStatusCode s = false →
        Response.redirect url (some s) = .error .invalidStatus)
    ∧ (∀ (url : String) (s : Nat) (r : Response),
        Response.redirect url (some s) = .ok r →
        isRedirectStatusCode s = true ∧ r.statusCode = s
          ∧ r.headers = [("Location", url)] ∧ r.body = Body.nullBody)
    ∧ (∀ url : String, ∃ r, Response.redirect url none = .ok r
        ∧ r.statusCode = 302)
    ∧ ∃ r, Response.redirect "https://example.com/x" (some 301) = .ok r
        ∧ r.statusCode = 301
        ∧ r.headers = [("Location", "https://example.com/x")]
        ∧ r.body = Body.nullBody
        ∧ r.getOk = false := by
  refine ⟨?_, ?_, ?_, ?_⟩
  · intro url s h
    simp [Response.redirect, h]
  · intro url s r h
    unfold Response.redirect at h
    simp only [Option.getD_some] at h
    split at h
    case isTrue hs =>
      obtain rfl := (Except.ok.inj h).symm
      exact ⟨hs, rfl, rfl, rfl⟩
    case isFalse hs => exact absurd h (by simp)
  · intro url
    exact ⟨_, rfl, rfl⟩
  · exact ⟨_, rfl, rfl, rfl, rfl, rfl⟩

/-- Witness for C7: concrete instances discharging each hypothesis of
`response_redirect_location`. -/
theorem response_redirect_location_witness :
    Response.redirect "u" (some 200) = .error RedirectError.invalidStatus
    ∧ (isRedirectStatusCode 307 = true
        ∧ (⟨307, "", [("Location", "u")], Body.nullBody, [], none⟩ :
              Response).statusCode = 307
        ∧ (⟨307, "", [("Location", "u")], Body.nullBody, [], none⟩ :
              Response).headers = [("Location", "u")]
        ∧ (⟨307, "", [("Location", "u")], Body.nullBody, [], none⟩ :
              Response).body = Body.nullBody) :=
  ⟨response_redirect_location.1 "u" 200 (by decide),
    response_redirect_location.2.1 "u" 307
      ⟨307, "", [("Location", "u")], Body.nullBody, [], none⟩ rfl⟩

/-- Unfolding lemma: one redirect-following iteration of the fetch loop
rewinds the body, retargets the request at the Location url and recurses,
recording the url and the transmitted bytes. -/
theorem fetchImpl_step (peer : Peer) (fuel : Nat) (req : Request)
    (urls : List String) (issued : List Issued) (loc : String)
    (hf : req.redirect = .follow)
    (hst : isRedirectStatusCode (peer req.url req.bodyBytes).status = true)
    (hloc : (peer req.url req.bodyBytes).location = some loc)
    (hrw : req.body.canRewindBody = true) :
    fetchImpl peer (fuel + 1) req urls issued
      = fetchImpl peer fuel
          { req with url := loc, body := req.body.rewindBody }
          (urls ++ [req.url]) (issued ++ [(req.url, req.bodyBytes)]) := by
  rw [fetchImpl,
    if_pos (by
      rw [hf]
      simp [hst, show (Redirect.follow == Redirect.follow) = true from rfl]),
    hloc]
  simp [hrw]

/-- Unfolding lemma: when the reply is not a followed redirect (manual mode
or non-redirect status), the fetch loop returns it with the url recorded. -/
theorem fetchImpl_final (peer : Peer) (fuel : Nat) (req : Request)
    (urls : List String) (issued : List Issued)
    (hc : (req.redirect == Redirect.follow
        && isRedirectStatusCode (peer req.url req.bodyBytes).status)
          = false) :
    fetchImpl peer fuel req urls issued
      = .ok (Response.fromReply (peer req.url req.bodyBytes)
            (urls ++ [req.url]),
          issued ++ [(req.url, req.bodyBytes)]) := by
  rw [fetchImpl, if_neg (by simp [hc])]

/-- Unfolding lemma: a followed redirect whose body cannot be rewound fails
the whole operation. -/
theorem fetchImpl_notRewindable (peer : Peer) (fuel : Nat) (req : Request)
    (urls : List String) (issued : List Issued) (loc : String)
    (hf : req.redirect = .follow)
    (hst : isRedirectStatusCode (peer req.url req.bodyBytes).status = true)
    (hloc : (peer req.url req.bodyBytes).location = some loc)
    (hrw : req.body.canRewindBody = false) :
    fetchImpl peer fuel req urls issued
      = .error .redirectBodyNotRewindable := by
  rw [fetchImpl,
    if_pos (by
      rw [hf]
      simp [hst, show (Redirect.follow == Redirect.follow) = true from rfl]),
    hloc]
  simp [hrw]

/-- Claim C3: a follow-mode fetch hitting a redirect-status reply with a
Location fails outright when the body is not rewindable; otherwise it
rewinds the body and re-issues against the Location target, appending to
the url list; in particular against a peer replying 307 with Location L and
a rewindable body, exactly one further request is issued, to L, carrying
identical body bytes, and the urlList has length 2. -/
theorem fetch_follow_redirect :
    (∀ (peer : Peer) (req : Request) (loc : String),
        req.redirect = .follow →
        isRedirectStatusCode (peer req.url req.bodyBytes).status = true →
        (peer req.url req.bodyBytes).location = some loc →
        req.body.canRewindBody = false →
        fetch peer req = .error .redirectBodyNotRewindable)
    ∧ (∀ (peer : Peer) (req : Request) (loc : String),
        req.redirect = .follow →
        isRedirectStatusCode (peer req.url req.bodyBytes).status = true →
        (peer req.url req.bodyBytes).location = some loc →
        req.body.canRewindBody = true →
        fetch peer req
          = fetchImpl peer (redirectChainLimit - 1)
              { req with url := loc, body := req.body.rewindBody }
              [req.url] [(req.url, req.bodyBytes)])
    ∧ ∀ (u L : String) (bs : List Nat), L ≠ u →
        fetch (peer307 u L)
            (Request.construct u .follow (Body.ofInit (.bytes bs)) none)
          = .ok (Response.fromReply ⟨200, none, none⟩ [u, L],
              [(u, some bs), (L, some bs)])
          ∧ (Response.fromReply (⟨200, none, none⟩ : PeerReply)
              [u, L]).urlList.length = 2 := by
  refine ⟨?_, ?_, ?_⟩
  · intro peer req loc hf hst hloc hrw
    exact fetchImpl_notRewindable peer redirectChainLimit req [] [] loc
      hf hst hloc hrw
  · intro peer req loc hf hst hloc hrw
    have h := fetchImpl_step peer 19 req [] [] loc hf hst hloc hrw
    simpa [fetch, redirectChainLimit] using h
  · intro u L bs hne
    refine ⟨?_, by simp [Response.fromReply]⟩
    have hpeer1 : peer307 u L
        (Request.construct u .follow (Body.ofInit (.bytes bs)) none).url
        ((Request.construct u .follow (Body.ofInit (.bytes bs))
          none).bodyBytes) = ⟨307, some L, none⟩ := by
      simp [peer307, Request.construct]
    have hstep := fetchImpl_step (peer307 u L) 19
      (Request.construct u .follow (Body.ofInit (.bytes bs)) none) [] [] L
      rfl (by rw [hpeer1]; rfl) (by rw [hpeer1]) rfl
    rw [fetch, show redirectChainLimit = 19 + 1 from rfl, hstep]
    rw [fetchImpl_final _ _ _ _ _ (by
      simp [peer307, Request.construct, Request.bodyBytes, Body.ofInit,
        extractBody, Body.rewindBody, ReadableStream.ofBytes, Buffer.view,
        Buffer.ofArray, OwnBytes.storage, hne, isRedirectStatusCode])]
    simp [peer307, Request.construct, Request.bodyBytes, Body.ofInit,
      extractBody, Body.rewindBody, ReadableStream.ofBytes, Buffer.view,
      Buffer.ofArray, OwnBytes.storage, Response.fromReply, hne]

/-- Witness for C3: the three parts of `fetch_follow_redirect` instantiated
at concrete peers, requests and body bytes. -/
theorem fetch_follow_redirect_witness :
    fetch (peer307 "a" "b")
        (Request.construct "a" .follow (Body.ofInit (.readableStream [1]))
          none)
      = .error FetchError.redirectBodyNotRewindable
    ∧ fetch (peer307 "a" "b")
        (Request.construct "a" .follow (Body.ofInit (.bytes [1, 2])) none)
      = fetchImpl (peer307 "a" "b") (redirectChainLimit - 1)
          ⟨"b", .follow, (Body.ofInit (.bytes [1, 2])).rewindBody, none,
            none⟩
          ["a"] [("a", some [1, 2])]
    ∧ fetch (peer307 "a" "b")
        (Request.construct "a" .follow (Body.ofInit (.bytes [1, 2])) none)
      = .ok (Response.fromReply ⟨200, none, none⟩ ["a", "b"],
          [("a", some [1, 2]), ("b", some [1, 2])]) := by
  refine ⟨?_, ?_, ?_⟩
  · exact fetch_follow_redirect.1 (peer307 "a" "b")
      (Request.construct "a" .follow (Body.ofInit (.readableStream [1]))
        none) "b" rfl rfl rfl rfl
  · exact fetch_follow_redirect.2.1 (peer307 "a" "b")
      (Request.construct "a" .follow (Body.ofInit (.bytes [1, 2])) none)
      "b" rfl rfl rfl rfl
  · exact (fetch_follow_redirect.2.2 "a" "b" [1, 2] (by decide)).1

end Workerd
